import Mathlib

/-!
Shallow embedding of the visitor check-in/check-out system
(in-memory `MemStorage` store, its lifecycle operations and its
query/aggregation layer), together with proofs of the specified
properties.  Timestamps (`Date` values) are modelled as integer epoch
milliseconds; the store's JS `Map` collections are modelled as lists in
insertion order (`Map.set` on an existing key replaces in place,
on a fresh key appends), matching JS iteration-order semantics.
-/

namespace VisitorApp

/-- The shared schema's `VisitorTypeEnum` (`z.enum(["General",
"Researcher"])`).  The stored `visitor_type` column itself is an
unrestricted text column and `insertVisitorSchema` does not apply this
enum, so `Visitor.visitorType` below is a plain `String`. -/
def VisitorTypeEnum : List String := ["General", "Researcher"]

/-- The shared schema's `CheckStatus` enum (`z.enum(["CheckedIn",
"CheckedOut"])`).  The stored `status` column is likewise a plain text
column. -/
def CheckStatus : List String := ["CheckedIn", "CheckedOut"]

/-- A row of the `visitors` pgTable from the shared schema: text columns
are `String` (nullable ones `Option String`), timestamps are epoch
milliseconds (`Int`, nullable `Option Int`), `fee_paid` is a nullable
boolean.  `visitorType`, `destination` and `status` are plain text
columns, not enum-restricted. -/
structure Visitor where
  id : Nat
  fullName : String
  idNumber : String
  phoneNumber : String
  visitorType : String
  destination : String
  timeIn : Int
  timeOut : Option Int
  status : String
  institute : Option String
  researchArea : Option String
  homeAddress : Option String
  ticketNumber : Option String
  feePaid : Option Bool
  date : String
deriving DecidableEq, Repr

/-- The `insertVisitorSchema` payload: the `visitors` row shape with
`id`, `status` and `date` omitted.  It retains the nullable `timeOut`
column (which `createVisitor` then overwrites with null), and
`visitorType` is an unrestricted string. -/
structure InsertVisitor where
  fullName : String
  idNumber : String
  phoneNumber : String
  visitorType : String
  destination : String
  timeIn : Int
  timeOut : Option Int
  institute : Option String
  researchArea : Option String
  homeAddress : Option String
  ticketNumber : Option String
  feePaid : Option Bool
deriving DecidableEq, Repr

/-- A row of the `users` pgTable: `role` is a plain text column and the
`last_login` and `created_at` timestamps are nullable. -/
structure User where
  id : Nat
  username : String
  password : String
  fullName : String
  role : String
  email : Option String
  lastLogin : Option Int
  createdAt : Option Int
deriving DecidableEq, Repr

/-- The `insertUserSchema` payload: username, password, fullName, role
and the nullable email. -/
structure InsertUser where
  username : String
  password : String
  fullName : String
  role : String
  email : Option String
deriving DecidableEq, Repr

/-- A row of the `library_visits` pgTable; `status` is a plain text
column. -/
structure LibraryVisit where
  id : Nat
  visitorId : Nat
  ticketNumber : String
  specificStudyArea : String
  materialsRequested : Option String
  controlOfficer : String
  checkInTime : Int
  checkOutTime : Option Int
  status : String
  notes : Option String
  date : String
deriving DecidableEq, Repr

/-- The `insertLibraryVisitSchema` payload: the `library_visits` row
shape with `id`, `status` and `date` omitted; it retains the nullable
`checkOutTime` and `notes` columns (both overwritten at creation). -/
structure InsertLibraryVisit where
  visitorId : Nat
  ticketNumber : String
  specificStudyArea : String
  materialsRequested : Option String
  controlOfficer : String
  checkInTime : Int
  checkOutTime : Option Int
  notes : Option String
deriving DecidableEq, Repr

/-- JS `x || null` on an optional string field: `undefined` and the empty
string (both falsy) become `null`. -/
def jsOrNullStr : Option String → Option String
  | none => none
  | some s => if s = "" then none else some s

/-- JS `x || null` on an optional boolean field: `undefined` and `false`
(both falsy) become `null`. -/
def jsOrNullBool : Option Bool → Option Bool
  | some true => some true
  | _ => none

/-- JS `x || d` on an optional string with fallback `d`: `undefined` and
the empty string fall back to `d`. -/
def jsOrElseStr (x : Option String) (d : Option String) : Option String :=
  match x with
  | none => d
  | some s => if s = "" then d else some s

/-- Gregorian civil date from a day count (days since 0000-03-01),
the algorithm underlying `Date.prototype.toISOString`'s calendar-day part. -/
def daysToCivil (z : Nat) : Nat × Nat × Nat :=
  let era := z / 146097
  let doe := z % 146097
  let yoe := (doe - doe / 1460 + doe / 36524 - doe / 146096) / 365
  let y := yoe + era * 400
  let doy := doe - (365 * yoe + yoe / 4 - yoe / 100)
  let mp := (5 * doy + 2) / 153
  let d := doy - (153 * mp + 2) / 5 + 1
  let m := if mp < 10 then mp + 3 else mp - 9
  (if m ≤ 2 then y + 1 else y, m, d)

/-- Zero-pad a numeral to two digits. -/
def pad2 (n : Nat) : String :=
  if n < 10 then "0" ++ toString n else toString n

/-- Zero-pad a numeral to four digits. -/
def pad4 (n : Nat) : String :=
  if n < 10 then "000" ++ toString n
  else if n < 100 then "00" ++ toString n
  else if n < 1000 then "0" ++ toString n
  else toString n

/-- `new Date(ms).toISOString().split('T')[0]`: the UTC calendar day
`YYYY-MM-DD` of an epoch-millisecond timestamp. -/
def toISODate (ms : Int) : String :=
  let days := Int.fdiv ms 86400000
  let z := (days + 719468).toNat
  let c := daysToCivil z
  pad4 c.1 ++ "-" ++ pad2 c.2.1 ++ "-" ++ pad2 c.2.2

/-- `Map.get` over an insertion-ordered collection keyed by `key`. -/
def mapGet {α : Type} (key : α → Nat) (l : List α) (k : Nat) : Option α :=
  l.find? (fun w => key w == k)

/-- `Map.set` over an insertion-ordered collection: an existing key is
replaced in place (keeping its position), a fresh key is appended. -/
def mapSet {α : Type} (key : α → Nat) (l : List α) (k : Nat) (v : α) : List α :=
  if l.any (fun w => key w == k) then
    l.map (fun w => if key w == k then v else w)
  else
    l ++ [v]

/-- The `MemStorage` state: the three keyed collections plus the three
per-collection id counters. -/
structure MemStorage where
  users : List User
  visitors : List Visitor
  libraryVisits : List LibraryVisit
  userCurrentId : Nat
  visitorCurrentId : Nat
  libraryVisitCurrentId : Nat
deriving DecidableEq, Repr

/-- The `MemStorage` constructor state before `seedDefaultUsers` runs:
empty collections, all counters at 1. -/
def emptyStorage : MemStorage :=
  { users := [], visitors := [], libraryVisits := []
    userCurrentId := 1, visitorCurrentId := 1, libraryVisitCurrentId := 1 }

/-- `seedDefaultUsers`: inserts the four default users.  The external
bcrypt hash and the wall clock are passed in as parameters. -/
def seedDefaultUsers (s : MemStorage) (hash : String → String) (now : Int) : MemStorage :=
  let admin : User :=
    { id := s.userCurrentId, username := "admin", password := hash "admin123"
      fullName := "System Administrator", role := "Admin"
      email := some "admin@archives.gov.zw", lastLogin := none, createdAt := some now }
  let s1 : MemStorage :=
    { s with users := mapSet User.id s.users admin.id admin
             userCurrentId := s.userCurrentId + 1 }
  let receptionist : User :=
    { id := s1.userCurrentId, username := "reception", password := hash "reception123"
      fullName := "Reception Staff", role := "Receptionist"
      email := some "reception@archives.gov.zw", lastLogin := none, createdAt := some now }
  let s2 : MemStorage :=
    { s1 with users := mapSet User.id s1.users receptionist.id receptionist
              userCurrentId := s1.userCurrentId + 1 }
  let accountant : User :=
    { id := s2.userCurrentId, username := "accounts", password := hash "accounts123"
      fullName := "Accounts Staff", role := "Accountant"
      email := some "accounts@archives.gov.zw", lastLogin := none, createdAt := some now }
  let s3 : MemStorage :=
    { s2 with users := mapSet User.id s2.users accountant.id accountant
              userCurrentId := s2.userCurrentId + 1 }
  let libraryOfficer : User :=
    { id := s3.userCurrentId, username := "library", password := hash "library123"
      fullName := "Library Staff", role := "LibraryOfficer"
      email := some "library@archives.gov.zw", lastLogin := none, createdAt := some now }
  { s3 with users := mapSet User.id s3.users libraryOfficer.id libraryOfficer
            userCurrentId := s3.userCurrentId + 1 }

/-- The storage singleton's state right after construction and seeding. -/
def initialStorage (hash : String → String) (now : Int) : MemStorage :=
  seedDefaultUsers emptyStorage hash now

/-- `createUser`: assigns the next user id, defaults `email` (falsy
coalescing), sets `lastLogin` to null and `createdAt` to the clock. -/
def createUser (s : MemStorage) (p : InsertUser) (now : Int) : User × MemStorage :=
  let id := s.userCurrentId
  let user : User :=
    { id, username := p.username, password := p.password, fullName := p.fullName
      role := p.role, email := jsOrNullStr p.email, lastLogin := none, createdAt := some now }
  (user, { s with users := mapSet User.id s.users id user
                  userCurrentId := s.userCurrentId + 1 })

/-- `updateUserLastLogin`: sets `lastLogin` to the clock on an existing
user, returns `undefined` on an unknown id. -/
def updateUserLastLogin (s : MemStorage) (id : Nat) (now : Int) :
    Option User × MemStorage :=
  match mapGet User.id s.users id with
  | none => (none, s)
  | some user =>
    let updatedUser : User := { user with lastLogin := some now }
    (some updatedUser, { s with users := mapSet User.id s.users id updatedUser })

/-- `createVisitor`: assigns the next visitor id, derives `date` from the
payload's `timeIn`, sets `status` to CheckedIn, `timeOut` to null, and
defaults the optional researcher fields with JS falsy coalescing. -/
def createVisitor (s : MemStorage) (p : InsertVisitor) : Visitor × MemStorage :=
  let id := s.visitorCurrentId
  let date := toISODate p.timeIn
  let visitor : Visitor :=
    { id, fullName := p.fullName, idNumber := p.idNumber
      phoneNumber := p.phoneNumber, visitorType := p.visitorType
      destination := p.destination, timeIn := p.timeIn
      status := "CheckedIn", date, timeOut := none
      institute := jsOrNullStr p.institute
      researchArea := jsOrNullStr p.researchArea
      homeAddress := jsOrNullStr p.homeAddress
      ticketNumber := jsOrNullStr p.ticketNumber
      feePaid := jsOrNullBool p.feePaid }
  (visitor, { s with visitors := mapSet Visitor.id s.visitors id visitor
                     visitorCurrentId := s.visitorCurrentId + 1 })

/-- `getVisitorsByDate`: all visitor records with the given date key. -/
def getVisitorsByDate (s : MemStorage) (date : String) : List Visitor :=
  s.visitors.filter (fun v => v.date == date)

/-- `getVisitorByIdNumber`: first visitor whose `idNumber` matches and
whose status is CheckedIn. -/
def getVisitorByIdNumber (s : MemStorage) (idNumber : String) : Option Visitor :=
  s.visitors.find? (fun v => v.idNumber == idNumber && v.status == "CheckedIn")

/-- `checkOutVisitor`: `undefined` on an unknown id; otherwise replaces
the record with a copy whose `timeOut` is set and whose status is
CheckedOut. -/
def checkOutVisitor (s : MemStorage) (id : Nat) (timeOut : Int) :
    Option Visitor × MemStorage :=
  match mapGet Visitor.id s.visitors id with
  | none => (none, s)
  | some visitor =>
    let updatedVisitor : Visitor :=
      { visitor with timeOut := some timeOut, status := "CheckedOut" }
    (some updatedVisitor,
     { s with visitors := mapSet Visitor.id s.visitors id updatedVisitor })

/-- The outcome of `updateResearcherFee`: `undefined` on an unknown id, a
thrown domain error on a non-researcher, or the updated record. -/
inductive FeeUpdateResult where
  | notFound
  | domainError (msg : String)
  | ok (v : Visitor)
deriving DecidableEq, Repr

/-- `updateResearcherFee`: throws a domain error (leaving the store
untouched) unless the record exists and is a Researcher; otherwise sets
`feePaid` and `ticketNumber`. -/
def updateResearcherFee (s : MemStorage) (id : Nat) (feePaid : Bool)
    (ticketNumber : String) : FeeUpdateResult × MemStorage :=
  match mapGet Visitor.id s.visitors id with
  | none => (FeeUpdateResult.notFound, s)
  | some visitor =>
    if visitor.visitorType ≠ "Researcher" then
      (FeeUpdateResult.domainError "Only researchers can have fee status updated", s)
    else
      let updatedVisitor : Visitor :=
        { visitor with feePaid := some feePaid, ticketNumber := some ticketNumber }
      (FeeUpdateResult.ok updatedVisitor,
       { s with visitors := mapSet Visitor.id s.visitors id updatedVisitor })

/-- `createLibraryVisit`: mirrors visitor creation for library visits. -/
def createLibraryVisit (s : MemStorage) (p : InsertLibraryVisit) :
    LibraryVisit × MemStorage :=
  let id := s.libraryVisitCurrentId
  let date := toISODate p.checkInTime
  let libraryVisit : LibraryVisit :=
    { id, visitorId := p.visitorId, ticketNumber := p.ticketNumber
      specificStudyArea := p.specificStudyArea
      materialsRequested := jsOrNullStr p.materialsRequested
      controlOfficer := p.controlOfficer, checkInTime := p.checkInTime
      status := "CheckedIn", date, checkOutTime := none, notes := none }
  (libraryVisit,
   { s with libraryVisits := mapSet LibraryVisit.id s.libraryVisits id libraryVisit
            libraryVisitCurrentId := s.libraryVisitCurrentId + 1 })

/-- `checkOutLibraryVisit`: sets `checkOutTime`, flips status to
CheckedOut, and keeps the prior notes unless non-empty notes are given. -/
def checkOutLibraryVisit (s : MemStorage) (id : Nat) (checkOutTime : Int)
    (notes : Option String) : Option LibraryVisit × MemStorage :=
  match mapGet LibraryVisit.id s.libraryVisits id with
  | none => (none, s)
  | some visit =>
    let updatedVisit : LibraryVisit :=
      { visit with checkOutTime := some checkOutTime
                   status := "CheckedOut"
                   notes := jsOrElseStr notes visit.notes }
    (some updatedVisit,
     { s with libraryVisits := mapSet LibraryVisit.id s.libraryVisits id updatedVisit })

/-- The nine fixed department keys of the daily summary. -/
def departmentKeys : List String :=
  ["Records", "Accounts", "IT", "Admin", "Library", "HR", "Research", "Oral", "Secretary"]

/-- The department tally initialized with all nine keys at zero. -/
def initDepartments : List (String × Nat) :=
  departmentKeys.map (fun k => (k, 0))

/-- One `forEach` step of the department tally: increments the entry whose
key equals the visitor's destination (`destination in departments` guard:
an unknown destination increments nothing). -/
def bumpDepartment (ds : List (String × Nat)) (dest : String) : List (String × Nat) :=
  ds.map (fun p => if p.1 = dest then (p.1, p.2 + 1) else p)

/-- The daily summary value. -/
structure DailySummary where
  totalVisitors : Nat
  generalVisitors : Nat
  researchers : Nat
  departments : List (String × Nat)
deriving DecidableEq, Repr

/-- `getDailyVisitorSummary`: counts the day's visitors overall, by
visitor type, and by destination department. -/
def getDailyVisitorSummary (s : MemStorage) (date : String) : DailySummary :=
  let visitors := getVisitorsByDate s date
  let generalVisitors :=
    (visitors.filter (fun v => v.visitorType == "General")).length
  let researchers :=
    (visitors.filter (fun v => v.visitorType == "Researcher")).length
  let departments := visitors.foldl (fun ds v => bumpDepartment ds v.destination) initDepartments
  { totalVisitors := visitors.length, generalVisitors, researchers, departments }

/-- JS `Math.round`: round to the nearest integer, halves toward +∞. -/
def jsMathRound (q : ℚ) : Int :=
  ⌊q + 1 / 2⌋

/-- The reporting page's `calculateAverageDuration` helper: restricted to
visitors with a `timeOut`, the mean of the `(timeOut − timeIn)` durations
in minutes, rounded, rendered as hours (floored) and leftover minutes
(JS `%`, truncated remainder); `"-"` when no visitor has a `timeOut`.
Arithmetic is modelled exactly over `ℚ`. -/
def calculateAverageDuration (visitors : List Visitor) : String :=
  let visitorsWithDuration := visitors.filter (fun v => v.timeOut.isSome)
  if visitorsWithDuration.length = 0 then "-"
  else
    let totalMinutes : ℚ := visitorsWithDuration.foldl
      (fun acc v => acc + (((v.timeOut.getD 0 : Int) : ℚ) - (v.timeIn : ℚ)) / (1000 * 60)) 0
    let avgMinutes : Int := jsMathRound (totalMinutes / (visitorsWithDuration.length : ℚ))
    let hours : Int := Int.fdiv avgMinutes 60
    let minutes : Int := Int.tmod avgMinutes 60
    toString hours ++ "h " ++ toString minutes ++ "m"

/-- Spec-side counterpart of the helper above, written from the spec's
wording for the refinement statement: the arithmetic mean, over the
records having a `timeOut`, of the duration `(timeOut − timeIn)`
expressed in minutes; `none` when no record has a `timeOut`. -/
def specAverageMinutes (visitors : List Visitor) : Option ℚ :=
  let ds := (visitors.filter (fun v => v.timeOut.isSome)).map
    (fun v => (((v.timeOut.getD 0 : Int) : ℚ) - (v.timeIn : ℚ)) / 60000)
  if ds.length = 0 then none else some (ds.sum / (ds.length : ℚ))

/-- A store mutation, tagged with the external inputs (clock values) the
corresponding method reads. -/
inductive Op where
  | createUser (p : InsertUser) (now : Int)
  | updateUserLastLogin (id : Nat) (now : Int)
  | createVisitor (p : InsertVisitor)
  | checkOutVisitor (id : Nat) (timeOut : Int)
  | updateResearcherFee (id : Nat) (feePaid : Bool) (ticketNumber : String)
  | createLibraryVisit (p : InsertLibraryVisit)
  | checkOutLibraryVisit (id : Nat) (checkOutTime : Int) (notes : Option String)

/-- The state after one store mutation (a thrown domain error leaves the
store untouched, as the route boundary catches it after no mutation). -/
def applyOp (s : MemStorage) : Op → MemStorage
  | Op.createUser p now => (createUser s p now).2
  | Op.updateUserLastLogin id now => (updateUserLastLogin s id now).2
  | Op.createVisitor p => (createVisitor s p).2
  | Op.checkOutVisitor id timeOut => (checkOutVisitor s id timeOut).2
  | Op.updateResearcherFee id feePaid ticketNumber =>
      (updateResearcherFee s id feePaid ticketNumber).2
  | Op.createLibraryVisit p => (createLibraryVisit s p).2
  | Op.checkOutLibraryVisit id checkOutTime notes =>
      (checkOutLibraryVisit s id checkOutTime notes).2

/-- The state after a sequence of store mutations. -/
def runOps (s : MemStorage) (ops : List Op) : MemStorage :=
  ops.foldl applyOp s

/-- The id-assignment invariant: in each collection every stored id is
strictly below the collection's counter, and no two records share an id. -/
def storeInv (s : MemStorage) : Prop :=
  ((∀ u ∈ s.users, u.id < s.userCurrentId) ∧ (s.users.map User.id).Nodup) ∧
  ((∀ v ∈ s.visitors, v.id < s.visitorCurrentId) ∧ (s.visitors.map Visitor.id).Nodup) ∧
  ((∀ w ∈ s.libraryVisits, w.id < s.libraryVisitCurrentId) ∧
    (s.libraryVisits.map LibraryVisit.id).Nodup)

/-- Number of CheckedIn visitor records carrying a given idNumber. -/
def checkedInCount (l : List Visitor) (idNum : String) : Nat :=
  (l.filter (fun v => v.idNumber == idNum && v.status == "CheckedIn")).length

/-- The claimed uniqueness invariant: at most one CheckedIn record per
idNumber. -/
def atMostOneCheckedIn (s : MemStorage) : Prop :=
  ∀ idNum : String, checkedInCount s.visitors idNum ≤ 1

/-- A sequence of mutations starting at `s` is guarded when every
`createVisitor` is issued only in a state with no active (CheckedIn)
record for the payload's idNumber — the front-desk usage pattern in which
`getVisitorByIdNumber` is consulted first. -/
def guardedOps : MemStorage → List Op → Prop
  | _, [] => True
  | s, op :: rest =>
      (match op with
       | Op.createVisitor p => getVisitorByIdNumber s p.idNumber = none
       | _ => True) ∧ guardedOps (applyOp s op) rest

/-- A placeholder bcrypt hash for instantiating the seeded store. -/
def hash0 : String → String := fun _ => "$2a$10$hash"

/-- A concrete researcher check-in payload (the spec's test scenario:
timeIn is 2024-01-01T09:00:00Z as epoch milliseconds). -/
def p123 : InsertVisitor :=
  { fullName := "A", idNumber := "123", phoneNumber := "0771"
    visitorType := "Researcher", destination := "Library"
    timeIn := 1704099600000, timeOut := none
    institute := none, researchArea := none
    homeAddress := none, ticketNumber := none, feePaid := none }

/-- A concrete general-visitor check-in payload. -/
def pGen : InsertVisitor :=
  { fullName := "B", idNumber := "456", phoneNumber := "0772"
    visitorType := "General", destination := "Records"
    timeIn := 1704099600000, timeOut := none
    institute := none, researchArea := none
    homeAddress := none, ticketNumber := none, feePaid := none }

/-- The freshly seeded store. -/
def s0 : MemStorage := initialStorage hash0 0

/-- The store after checking in one general visitor (visitor id 1). -/
def s1 : MemStorage := (createVisitor s0 pGen).2

/-- The store after checking in one researcher (visitor id 1). -/
def sRes : MemStorage := (createVisitor s0 p123).2

/-- The store after checking in the same idNumber twice without any
intervening checkout. -/
def sDup : MemStorage := runOps s0 [Op.createVisitor p123, Op.createVisitor p123]

/-- The store after checking the researcher out at 2024-01-01T11:00:00Z. -/
def sOut : MemStorage := (checkOutVisitor sRes 1 1704106800000).2

/-- The researcher's record after that checkout. -/
def vOut1 : Visitor :=
  { (createVisitor s0 p123).1 with
    timeOut := some 1704106800000
    status := "CheckedOut" }

/-- A payload whose visitorType is neither "General" nor "Researcher";
`insertVisitorSchema` admits it because the visitor_type column is an
unrestricted string. -/
def pOther : InsertVisitor :=
  { fullName := "C", idNumber := "789", phoneNumber := "0773"
    visitorType := "Student", destination := "Library"
    timeIn := 1704099600000, timeOut := none
    institute := none, researchArea := none
    homeAddress := none, ticketNumber := none, feePaid := none }

/-- The store after checking in that out-of-enum visitor. -/
def sOther : MemStorage := (createVisitor s0 pOther).2

/-- A concrete visitor record with a two-hour visit, for the
average-duration scenario. -/
def vDone : Visitor :=
  { id := 1, fullName := "A", idNumber := "123", phoneNumber := "0771"
    visitorType := "Researcher", destination := "Library"
    timeIn := 1704099600000, timeOut := some 1704106800000
    status := "CheckedOut", date := "2024-01-01"
    institute := none, researchArea := none, homeAddress := none
    ticketNumber := none, feePaid := none }

end VisitorApp

namespace VisitorApp

/-! ### Lemmas about the `Map` model -/

theorem mapSet_of_not_any {α : Type} (key : α → Nat) (l : List α) (k : Nat) (v : α)
    (h : l.any (fun w => key w == k) = false) : mapSet key l k v = l ++ [v] := by
  simp [mapSet, h]

theorem mapSet_of_any {α : Type} (key : α → Nat) (l : List α) (k : Nat) (v : α)
    (h : l.any (fun w => key w == k) = true) :
    mapSet key l k v = l.map (fun w => if key w == k then v else w) := by
  simp [mapSet, h]

theorem any_eq_true_of_mapGet_some {α : Type} (key : α → Nat) (l : List α) (k : Nat)
    (v : α) (h : mapGet key l k = some v) : l.any (fun w => key w == k) = true := by
  have h' : l.find? (fun w => key w == k) = some v := h
  have hp := List.find?_some h'
  rw [List.any_eq_true]
  exact ⟨v, List.mem_of_find?_eq_some h', hp⟩

theorem key_eq_of_mapGet_some {α : Type} (key : α → Nat) (l : List α) (k : Nat)
    (v : α) (h : mapGet key l k = some v) : key v = k := by
  have := List.find?_some h
  simpa [beq_iff_eq] using this

theorem mem_of_mapGet_some {α : Type} (key : α → Nat) (l : List α) (k : Nat)
    (v : α) (h : mapGet key l k = some v) : v ∈ l :=
  List.mem_of_find?_eq_some h

theorem map_key_replace {α : Type} (key : α → Nat) (l : List α) (k : Nat) (v : α)
    (hv : key v = k) :
    (l.map (fun w => if key w == k then v else w)).map key = l.map key := by
  rw [List.map_map]
  apply List.map_congr_left
  intro w _
  by_cases hw : (key w == k) = true
  · simp only [Function.comp, hw, if_true, hv]
    exact (beq_iff_eq.mp hw).symm
  · simp [Function.comp, hw]

theorem find?_replace_self {α : Type} (key : α → Nat) (l : List α) (k : Nat) (v : α)
    (hv : key v = k) (h : l.any (fun w => key w == k) = true) :
    (l.map (fun w => if key w == k then v else w)).find? (fun w => key w == k) = some v := by
  induction l with
  | nil => simp at h
  | cons w l ih =>
    simp only [List.map_cons]
    by_cases hw : (key w == k) = true
    · rw [if_pos hw]
      exact @List.find?_cons_of_pos _ (fun w => key w == k) v _ (by simp [hv])
    · have hw' : (key w == k) = false := by simpa using hw
      simp only [List.any_cons, hw', Bool.false_or] at h
      rw [if_neg hw, @List.find?_cons_of_neg _ (fun w => key w == k) w _ hw]
      exact ih h

theorem mapGet_mapSet_self {α : Type} (key : α → Nat) (l : List α) (k : Nat) (v : α)
    (hv : key v = k) : mapGet key (mapSet key l k v) k = some v := by
  by_cases h : l.any (fun w => key w == k) = true
  · rw [mapSet_of_any key l k v h]
    exact find?_replace_self key l k v hv h
  · have h' : l.any (fun w => key w == k) = false := by
      cases hb : l.any (fun w => key w == k) with
      | false => rfl
      | true => exact absurd hb h
    rw [mapSet_of_not_any key l k v h']
    have hnone : l.find? (fun w => key w == k) = none := by
      rw [List.find?_eq_none]
      intro x hx
      exact List.any_eq_false.mp h' x hx
    unfold mapGet
    rw [List.find?_append, hnone]
    simp [List.find?_cons, hv]

theorem find?_replace_ne {α : Type} (key : α → Nat) (l : List α) (k : Nat) (v : α)
    (j : Nat) (hv : key v = k) (hj : j ≠ k) :
    (l.map (fun w => if key w == k then v else w)).find? (fun w => key w == j) =
      l.find? (fun w => key w == j) := by
  induction l with
  | nil => rfl
  | cons w l ih =>
    simp only [List.map_cons]
    by_cases hw : (key w == k) = true
    · have hwk : key w = k := beq_iff_eq.mp hw
      have hwj : ¬(key w == j) = true := by
        rw [beq_iff_eq]; omega
      have hvj : ¬(key v == j) = true := by
        rw [beq_iff_eq]; omega
      rw [if_pos hw, @List.find?_cons_of_neg _ (fun w => key w == j) v _ hvj,
        @List.find?_cons_of_neg _ (fun w => key w == j) w _ hwj]
      exact ih
    · rw [if_neg hw]
      by_cases hwj : (key w == j) = true
      · rw [@List.find?_cons_of_pos _ (fun w => key w == j) w _ hwj,
          @List.find?_cons_of_pos _ (fun w => key w == j) w _ hwj]
      · rw [@List.find?_cons_of_neg _ (fun w => key w == j) w _ hwj,
          @List.find?_cons_of_neg _ (fun w => key w == j) w _ hwj]
        exact ih

theorem mapGet_mapSet_ne {α : Type} (key : α → Nat) (l : List α) (k : Nat) (v : α)
    (j : Nat) (hv : key v = k) (hj : j ≠ k) :
    mapGet key (mapSet key l k v) j = mapGet key l j := by
  by_cases h : l.any (fun w => key w == k) = true
  · rw [mapSet_of_any key l k v h]
    exact find?_replace_ne key l k v j hv hj
  · have h' : l.any (fun w => key w == k) = false := by
      cases hb : l.any (fun w => key w == k) with
      | false => rfl
      | true => exact absurd hb h
    rw [mapSet_of_not_any key l k v h']
    unfold mapGet
    rw [List.find?_append]
    have : [v].find? (fun w => key w == j) = none := by
      have hvj : (key v == j) = false := beq_eq_false_iff_ne.mpr (by omega)
      simp [List.find?_cons, hvj]
    rw [this, Option.or_none]

theorem length_filter_map_le {α : Type} (p : α → Bool) (f : α → α) (l : List α)
    (h : ∀ w ∈ l, p (f w) = true → p w = true) :
    ((l.map f).filter p).length ≤ (l.filter p).length := by
  induction l with
  | nil => simp
  | cons w l ih =>
    have ih' := ih (fun x hx => h x (List.mem_cons_of_mem _ hx))
    simp only [List.map_cons, List.filter_cons]
    by_cases hfw : p (f w) = true
    · have hw : p w = true := h w (List.mem_cons_self _ _) hfw
      simp [hfw, hw]
      omega
    · have hfw' : p (f w) = false := by simpa using hfw
      simp only [hfw']
      by_cases hw : p w = true
      · simp [hw]
        omega
      · have hw' : p w = false := by simpa using hw
        simp [hw']
        exact ih'

theorem length_filter_map_eq {α : Type} (p : α → Bool) (f : α → α) (l : List α)
    (h : ∀ w ∈ l, p (f w) = p w) :
    ((l.map f).filter p).length = (l.filter p).length := by
  induction l with
  | nil => simp
  | cons w l ih =>
    have ih' := ih (fun x hx => h x (List.mem_cons_of_mem _ hx))
    have hw := h w (List.mem_cons_self _ _)
    simp only [List.map_cons, List.filter_cons, hw]
    by_cases hpw : p w = true
    · simp [hpw, ih']
    · have hpw' : p w = false := by simpa using hpw
      simp [hpw', ih']

theorem not_any_of_lt {α : Type} (key : α → Nat) (l : List α) (c : Nat)
    (hlt : ∀ w ∈ l, key w < c) : l.any (fun w => key w == c) = false := by
  rw [List.any_eq_false]
  intro x hx
  rw [beq_iff_eq]
  exact Nat.ne_of_lt (hlt x hx)

theorem create_preserves {α : Type} (key : α → Nat) (l : List α) (c : Nat) (v : α)
    (hv : key v = c) (hlt : ∀ w ∈ l, key w < c) (hnd : (l.map key).Nodup) :
    (∀ w ∈ mapSet key l c v, key w < c + 1) ∧ ((mapSet key l c v).map key).Nodup := by
  rw [mapSet_of_not_any key l c v (not_any_of_lt key l c hlt)]
  constructor
  · intro w hw
    rcases List.mem_append.mp hw with h | h
    · exact Nat.lt_succ_of_lt (hlt w h)
    · have : w = v := by simpa using h
      subst this
      omega
  · rw [List.map_append, List.nodup_append]
    refine ⟨hnd, by simp, ?_⟩
    intro x hx hx'
    have hxc : x = key v := by simpa using hx'
    rcases List.mem_map.mp hx with ⟨w, hw, rfl⟩
    have := hlt w hw
    omega

theorem replace_preserves {α : Type} (key : α → Nat) (l : List α) (k : Nat) (v : α)
    (c : Nat) (hv : key v = k)
    (hany : l.any (fun w => key w == k) = true)
    (hlt : ∀ w ∈ l, key w < c) (hnd : (l.map key).Nodup) :
    (∀ w ∈ mapSet key l k v, key w < c) ∧ ((mapSet key l k v).map key).Nodup := by
  have hk : k < c := by
    rcases List.any_eq_true.mp hany with ⟨x, hx, hxk⟩
    have := hlt x hx
    rw [beq_iff_eq] at hxk
    omega
  rw [mapSet_of_any key l k v hany]
  constructor
  · intro w hw
    rcases List.mem_map.mp hw with ⟨x, hx, rfl⟩
    by_cases hxk : (key x == k) = true
    · rw [if_pos hxk, hv]
      exact hk
    · rw [if_neg hxk]
      exact hlt x hx
  · rw [map_key_replace key l k v hv]
    exact hnd

theorem storeInv_applyOp (s : MemStorage) (op : Op) (h : storeInv s) :
    storeInv (applyOp s op) := by
  obtain ⟨⟨hu1, hu2⟩, ⟨hv1, hv2⟩, ⟨hl1, hl2⟩⟩ := h
  cases op with
  | createUser p now =>
    exact ⟨create_preserves User.id s.users s.userCurrentId _ rfl hu1 hu2,
      ⟨hv1, hv2⟩, ⟨hl1, hl2⟩⟩
  | updateUserLastLogin id now =>
    show storeInv (updateUserLastLogin s id now).2
    unfold VisitorApp.updateUserLastLogin
    cases hg : mapGet User.id s.users id with
    | none => exact ⟨⟨hu1, hu2⟩, ⟨hv1, hv2⟩, ⟨hl1, hl2⟩⟩
    | some user =>
      have hkey : user.id = id := key_eq_of_mapGet_some User.id s.users id user hg
      exact ⟨replace_preserves User.id s.users id _ s.userCurrentId hkey
        (any_eq_true_of_mapGet_some User.id s.users id user hg) hu1 hu2,
        ⟨hv1, hv2⟩, ⟨hl1, hl2⟩⟩
  | createVisitor p =>
    exact ⟨⟨hu1, hu2⟩,
      create_preserves Visitor.id s.visitors s.visitorCurrentId _ rfl hv1 hv2,
      ⟨hl1, hl2⟩⟩
  | checkOutVisitor id timeOut =>
    show storeInv (checkOutVisitor s id timeOut).2
    unfold VisitorApp.checkOutVisitor
    cases hg : mapGet Visitor.id s.visitors id with
    | none => exact ⟨⟨hu1, hu2⟩, ⟨hv1, hv2⟩, ⟨hl1, hl2⟩⟩
    | some visitor =>
      have hkey : visitor.id = id := key_eq_of_mapGet_some Visitor.id s.visitors id visitor hg
      exact ⟨⟨hu1, hu2⟩,
        replace_preserves Visitor.id s.visitors id _ s.visitorCurrentId hkey
          (any_eq_true_of_mapGet_some Visitor.id s.visitors id visitor hg) hv1 hv2,
        ⟨hl1, hl2⟩⟩
  | updateResearcherFee id feePaid ticketNumber =>
    show storeInv (updateResearcherFee s id feePaid ticketNumber).2
    unfold VisitorApp.updateResearcherFee
    cases hg : mapGet Visitor.id s.visitors id with
    | none => exact ⟨⟨hu1, hu2⟩, ⟨hv1, hv2⟩, ⟨hl1, hl2⟩⟩
    | some visitor =>
      have hkey : visitor.id = id := key_eq_of_mapGet_some Visitor.id s.visitors id visitor hg
      by_cases hr : visitor.visitorType ≠ "Researcher"
      · simp only [if_pos hr]
        exact ⟨⟨hu1, hu2⟩, ⟨hv1, hv2⟩, ⟨hl1, hl2⟩⟩
      · simp only [if_neg hr]
        exact ⟨⟨hu1, hu2⟩,
          replace_preserves Visitor.id s.visitors id _ s.visitorCurrentId hkey
            (any_eq_true_of_mapGet_some Visitor.id s.visitors id visitor hg) hv1 hv2,
          ⟨hl1, hl2⟩⟩
  | createLibraryVisit p =>
    exact ⟨⟨hu1, hu2⟩, ⟨hv1, hv2⟩,
      create_preserves LibraryVisit.id s.libraryVisits s.libraryVisitCurrentId _ rfl hl1 hl2⟩
  | checkOutLibraryVisit id checkOutTime notes =>
    show storeInv (checkOutLibraryVisit s id checkOutTime notes).2
    unfold VisitorApp.checkOutLibraryVisit
    cases hg : mapGet LibraryVisit.id s.libraryVisits id with
    | none => exact ⟨⟨hu1, hu2⟩, ⟨hv1, hv2⟩, ⟨hl1, hl2⟩⟩
    | some visit =>
      have hkey : visit.id = id := key_eq_of_mapGet_some LibraryVisit.id s.libraryVisits id visit hg
      exact ⟨⟨hu1, hu2⟩, ⟨hv1, hv2⟩,
        replace_preserves LibraryVisit.id s.libraryVisits id _ s.libraryVisitCurrentId hkey
          (any_eq_true_of_mapGet_some LibraryVisit.id s.libraryVisits id visit hg) hl1 hl2⟩

theorem checkedInCount_append_one (l : List Visitor) (v : Visitor) (n : String) :
    checkedInCount (l ++ [v]) n =
      checkedInCount l n +
        (if (v.idNumber == n && v.status == "CheckedIn") = true then 1 else 0) := by
  unfold checkedInCount
  rw [List.filter_append, List.length_append]
  congr 1
  by_cases hp : (v.idNumber == n && v.status == "CheckedIn") = true
  · simp [hp]
  · have hp' : (v.idNumber == n && v.status == "CheckedIn") = false := by
      simpa using hp
    simp [hp']

theorem checkedInCount_eq_zero_of_lookup_none (s : MemStorage) (n : String)
    (h : getVisitorByIdNumber s n = none) : checkedInCount s.visitors n = 0 := by
  unfold getVisitorByIdNumber at h
  rw [List.find?_eq_none] at h
  unfold checkedInCount
  rw [List.filter_eq_nil_iff.mpr h]
  rfl

theorem atMostOne_applyOp (s : MemStorage) (op : Op) (hinv : storeInv s)
    (h1 : atMostOneCheckedIn s)
    (hg : match op with
          | Op.createVisitor p => getVisitorByIdNumber s p.idNumber = none
          | _ => True) :
    atMostOneCheckedIn (applyOp s op) := by
  obtain ⟨-, ⟨hv1, hv2⟩, -⟩ := hinv
  cases op with
  | createUser p now => exact h1
  | updateUserLastLogin id now =>
    intro n
    show checkedInCount (updateUserLastLogin s id now).2.visitors n ≤ 1
    unfold VisitorApp.updateUserLastLogin
    cases hg' : mapGet User.id s.users id with
    | none => exact h1 n
    | some user => exact h1 n
  | createLibraryVisit p => exact h1
  | checkOutLibraryVisit id t notes =>
    intro n
    show checkedInCount (checkOutLibraryVisit s id t notes).2.visitors n ≤ 1
    unfold VisitorApp.checkOutLibraryVisit
    cases hg' : mapGet LibraryVisit.id s.libraryVisits id with
    | none => exact h1 n
    | some visit => exact h1 n
  | createVisitor p =>
    intro n
    show checkedInCount (createVisitor s p).2.visitors n ≤ 1
    have hany : s.visitors.any (fun w => Visitor.id w == s.visitorCurrentId) = false :=
      not_any_of_lt Visitor.id s.visitors s.visitorCurrentId hv1
    simp only [VisitorApp.createVisitor]
    rw [mapSet_of_not_any _ _ _ _ hany, checkedInCount_append_one]
    by_cases hn : p.idNumber = n
    · have h0 : checkedInCount s.visitors n = 0 := by
        subst hn
        exact checkedInCount_eq_zero_of_lookup_none s p.idNumber hg
      rw [h0]
      split <;> omega
    · have hb : (p.idNumber == n) = false := beq_eq_false_iff_ne.mpr hn
      have h1n := h1 n
      simp only [hb, Bool.false_and, if_false]
      simpa using h1n
  | checkOutVisitor id t =>
    intro n
    show checkedInCount (checkOutVisitor s id t).2.visitors n ≤ 1
    unfold VisitorApp.checkOutVisitor
    cases hg' : mapGet Visitor.id s.visitors id with
    | none => exact h1 n
    | some visitor =>
      have hany := any_eq_true_of_mapGet_some Visitor.id s.visitors id visitor hg'
      show checkedInCount (mapSet Visitor.id s.visitors id _) n ≤ 1
      rw [mapSet_of_any _ _ _ _ hany]
      unfold checkedInCount
      refine le_trans (length_filter_map_le _ _ s.visitors ?_) (h1 n)
      intro w hw hpw
      by_cases hwid : (Visitor.id w == id) = true
      · rw [if_pos hwid] at hpw
        simp at hpw
      · rw [if_neg hwid] at hpw
        exact hpw
  | updateResearcherFee id fee tn =>
    intro n
    show checkedInCount (updateResearcherFee s id fee tn).2.visitors n ≤ 1
    unfold VisitorApp.updateResearcherFee
    cases hg' : mapGet Visitor.id s.visitors id with
    | none => exact h1 n
    | some visitor =>
      have hkey : visitor.id = id := key_eq_of_mapGet_some Visitor.id s.visitors id visitor hg'
      have hany := any_eq_true_of_mapGet_some Visitor.id s.visitors id visitor hg'
      have hvmem := mem_of_mapGet_some Visitor.id s.visitors id visitor hg'
      by_cases hr : visitor.visitorType ≠ "Researcher"
      · simp only [if_pos hr]
        exact h1 n
      · simp only [if_neg hr]
        show checkedInCount (mapSet Visitor.id s.visitors id _) n ≤ 1
        rw [mapSet_of_any _ _ _ _ hany]
        unfold checkedInCount
        rw [length_filter_map_eq _ _ s.visitors ?_]
        · exact h1 n
        · intro w hw
          by_cases hwid : (Visitor.id w == id) = true
          · rw [if_pos hwid]
            have hwv : w = visitor := by
              apply List.inj_on_of_nodup_map hv2 hw hvmem
              rw [beq_iff_eq] at hwid
              rw [hwid, hkey]
            subst hwv
            simp
          · rw [if_neg hwid]

theorem atMostOne_guardedOps (s : MemStorage) (ops : List Op) (hinv : storeInv s)
    (h1 : atMostOneCheckedIn s) (hg : guardedOps s ops) :
    atMostOneCheckedIn (runOps s ops) := by
  induction ops generalizing s with
  | nil => exact h1
  | cons op rest ih =>
    obtain ⟨hop, hrest⟩ := hg
    exact ih (applyOp s op) (storeInv_applyOp s op hinv)
      (atMostOne_applyOp s op hinv h1 hop) hrest

theorem storeInv_runOps (s : MemStorage) (ops : List Op) (h : storeInv s) :
    storeInv (runOps s ops) := by
  induction ops generalizing s with
  | nil => exact h
  | cons op rest ih => exact ih (applyOp s op) (storeInv_applyOp s op h)

theorem storeInv_initialStorage (hash : String → String) (now : Int) :
    storeInv (initialStorage hash now) := by
  refine ⟨⟨?_, ?_⟩, ⟨by simp [initialStorage, seedDefaultUsers, emptyStorage, mapSet],
      by simp [initialStorage, seedDefaultUsers, emptyStorage, mapSet]⟩,
    ⟨by simp [initialStorage, seedDefaultUsers, emptyStorage, mapSet],
      by simp [initialStorage, seedDefaultUsers, emptyStorage, mapSet]⟩⟩
  · intro u hu
    simp only [initialStorage, seedDefaultUsers, emptyStorage, mapSet] at hu ⊢
    simp at hu
    rcases hu with h | h | h | h <;> subst h <;> simp
  · simp [initialStorage, seedDefaultUsers, emptyStorage, mapSet]

/-! ### Lemmas about the department tally -/

theorem map_fst_bumpDepartment (ds : List (String × Nat)) (dest : String) :
    (bumpDepartment ds dest).map Prod.fst = ds.map Prod.fst := by
  unfold bumpDepartment
  rw [List.map_map]
  apply List.map_congr_left
  intro p _
  by_cases h : p.1 = dest <;> simp [h]

theorem map_fst_foldl_bump (vs : List Visitor) (ds : List (String × Nat)) :
    (vs.foldl (fun ds v => bumpDepartment ds v.destination) ds).map Prod.fst =
      ds.map Prod.fst := by
  induction vs generalizing ds with
  | nil => rfl
  | cons v l ih => rw [List.foldl_cons, ih, map_fst_bumpDepartment]

theorem lookup_bumpDepartment (ds : List (String × Nat)) (dest k : String) :
    List.lookup k (bumpDepartment ds dest) =
      (List.lookup k ds).map (fun c => if dest = k then c + 1 else c) := by
  induction ds with
  | nil => rfl
  | cons p ds ih =>
    obtain ⟨a, b⟩ := p
    simp only [bumpDepartment, List.map_cons] at ih ⊢
    by_cases h1 : a = dest
    · rw [if_pos h1, List.lookup_cons, List.lookup_cons]
      cases h2 : k == a with
      | true =>
        have hka : k = a := beq_iff_eq.mp h2
        have hdk : dest = k := by rw [hka, h1]
        simp [hdk]
      | false => simpa using ih
    · rw [if_neg h1, List.lookup_cons, List.lookup_cons]
      cases h2 : k == a with
      | true =>
        have hka : k = a := beq_iff_eq.mp h2
        have hdk : ¬dest = k := by
          rw [hka]
          exact fun hh => h1 hh.symm
        simp [hdk]
      | false => simpa using ih

theorem lookup_foldl_bump (vs : List Visitor) (ds : List (String × Nat)) (k : String) :
    List.lookup k (vs.foldl (fun ds v => bumpDepartment ds v.destination) ds) =
      (List.lookup k ds).map
        (fun c => c + (vs.filter (fun v => v.destination == k)).length) := by
  induction vs generalizing ds with
  | nil =>
    simp only [List.foldl_nil, List.filter_nil, List.length_nil]
    cases List.lookup k ds <;> simp
  | cons v l ih =>
    rw [List.foldl_cons, ih, lookup_bumpDepartment, Option.map_map]
    cases ho : List.lookup k ds with
    | none => rfl
    | some c =>
      simp only [Option.map, Option.bind, Function.comp]
      by_cases hd : v.destination = k
      · have hb : (v.destination == k) = true := by simp [hd]
        rw [List.filter_cons, if_pos hb, List.length_cons, if_pos hd]
        congr 1
        omega
      · have hb : (v.destination == k) = false := by simp [hd]
        simp only [List.filter_cons, hb, if_neg hd]
        simp

theorem lookup_initDepartments (k : String) (hk : k ∈ departmentKeys) :
    List.lookup k initDepartments = some 0 := by
  unfold initDepartments
  fin_cases hk <;> rfl

theorem length_filter_two_disjoint (p q : Visitor → Bool) (l : List Visitor)
    (hdisj : ∀ x ∈ l, ¬(p x = true ∧ q x = true)) :
    (l.filter p).length + (l.filter q).length ≤ l.length := by
  induction l with
  | nil => simp
  | cons v l ih =>
    have ih' := ih (fun x hx => hdisj x (List.mem_cons_of_mem _ hx))
    have hd := hdisj v (List.mem_cons_self _ _)
    rw [List.filter_cons, List.filter_cons]
    by_cases hp : p v = true
    · have hq : ¬q v = true := fun hqv => hd ⟨hp, hqv⟩
      rw [if_pos hp, if_neg hq]
      simp only [List.length_cons]
      omega
    · rw [if_neg hp]
      by_cases hq : q v = true
      · rw [if_pos hq]
        simp only [List.length_cons]
        omega
      · rw [if_neg hq]
        simp only [List.length_cons]
        omega

theorem length_filter_two_cover (p q : Visitor → Bool) (l : List Visitor)
    (hdisj : ∀ x ∈ l, ¬(p x = true ∧ q x = true))
    (hcov : ∀ x ∈ l, p x = true ∨ q x = true) :
    (l.filter p).length + (l.filter q).length = l.length := by
  induction l with
  | nil => rfl
  | cons v l ih =>
    have ih' := ih (fun x hx => hdisj x (List.mem_cons_of_mem _ hx))
      (fun x hx => hcov x (List.mem_cons_of_mem _ hx))
    have hd := hdisj v (List.mem_cons_self _ _)
    rw [List.filter_cons, List.filter_cons]
    rcases hcov v (List.mem_cons_self _ _) with hp | hq
    · have hq : ¬q v = true := fun hqv => hd ⟨hp, hqv⟩
      rw [if_pos hp, if_neg hq]
      simp only [List.length_cons]
      omega
    · have hp : ¬p v = true := fun hpv => hd ⟨hpv, hq⟩
      rw [if_neg hp, if_pos hq]
      simp only [List.length_cons]
      omega

theorem general_researcher_disjoint (l : List Visitor) :
    ∀ x ∈ l, ¬((x.visitorType == "General") = true ∧
      (x.visitorType == "Researcher") = true) := by
  intro x _ hx
  obtain ⟨h1, h2⟩ := hx
  rw [beq_iff_eq] at h1 h2
  rw [h1] at h2
  exact absurd h2 (by decide)

/-! ### A fold lemma for the average-duration helper -/

theorem foldl_add_eq_sum (g : Visitor → ℚ) (l : List Visitor) (a : ℚ) :
    l.foldl (fun acc v => acc + g v) a = a + (l.map g).sum := by
  induction l generalizing a with
  | nil => simp
  | cons v l ih =>
    rw [List.foldl_cons, ih, List.map_cons, List.sum_cons]
    ring

/-! ### The claimed properties -/

/-- C2: on a stored non-Researcher, `updateResearcherFee` fails with the
domain error and leaves the store unchanged; on a stored Researcher it
sets `feePaid` and `ticketNumber`, stores the updated record, and leaves
the status unchanged. -/
theorem updateResearcherFee_spec (s : MemStorage) (id : Nat) (fee : Bool) (tn : String)
    (v : Visitor) (h : mapGet Visitor.id s.visitors id = some v) :
    (v.visitorType ≠ "Researcher" →
      updateResearcherFee s id fee tn =
        (FeeUpdateResult.domainError "Only researchers can have fee status updated", s)) ∧
    (v.visitorType = "Researcher" →
      (updateResearcherFee s id fee tn).1 =
          FeeUpdateResult.ok { v with feePaid := some fee, ticketNumber := some tn } ∧
        mapGet Visitor.id (updateResearcherFee s id fee tn).2.visitors id =
          some { v with feePaid := some fee, ticketNumber := some tn } ∧
        ({ v with feePaid := some fee, ticketNumber := some tn }).status = v.status) := by
  have hkey : Visitor.id v = id := key_eq_of_mapGet_some Visitor.id s.visitors id v h
  constructor
  · intro hr
    unfold VisitorApp.updateResearcherFee
    rw [h]
    dsimp only
    rw [if_pos hr]
  · intro hr
    have hr' : ¬v.visitorType ≠ "Researcher" := by simp [hr]
    unfold VisitorApp.updateResearcherFee
    rw [h]
    dsimp only
    rw [if_neg hr']
    exact ⟨rfl, mapGet_mapSet_self Visitor.id s.visitors id _ hkey, rfl⟩

/-- C2 witness: the concrete general visitor rejects the fee update with
the store unchanged, and the concrete researcher accepts it. -/
theorem updateResearcherFee_spec_witness :
    mapGet Visitor.id s1.visitors 1 = some (createVisitor s0 pGen).1 ∧
      updateResearcherFee s1 1 true "NAZ-24-1234" =
        (FeeUpdateResult.domainError "Only researchers can have fee status updated", s1) ∧
      (updateResearcherFee sRes 1 true "NAZ-24-1234").1 =
        FeeUpdateResult.ok { (createVisitor s0 p123).1 with
          feePaid := some true, ticketNumber := some "NAZ-24-1234" } :=
  ⟨by decide,
    (updateResearcherFee_spec s1 1 true "NAZ-24-1234" (createVisitor s0 pGen).1
      (by decide)).1 (by decide),
    ((updateResearcherFee_spec sRes 1 true "NAZ-24-1234" (createVisitor s0 p123).1
      (by decide)).2 (by decide)).1⟩

/-- C3: every created visitor is stored and returned with status
CheckedIn, a null `timeOut`, a `date` derived from the payload's own
`timeIn` (the model takes no clock input at all), and null defaults for
the absent optional researcher fields. -/
theorem createVisitor_spec (s : MemStorage) (p : InsertVisitor) :
    (createVisitor s p).1.status = "CheckedIn" ∧
    (createVisitor s p).1.timeOut = none ∧
    (createVisitor s p).1.date = toISODate p.timeIn ∧
    (p.institute = none → (createVisitor s p).1.institute = none) ∧
    (p.researchArea = none → (createVisitor s p).1.researchArea = none) ∧
    (p.homeAddress = none → (createVisitor s p).1.homeAddress = none) ∧
    (p.ticketNumber = none → (createVisitor s p).1.ticketNumber = none) ∧
    (p.feePaid = none → (createVisitor s p).1.feePaid = none) ∧
    mapGet Visitor.id (createVisitor s p).2.visitors (createVisitor s p).1.id =
      some (createVisitor s p).1 := by
  refine ⟨rfl, rfl, rfl, ?_, ?_, ?_, ?_, ?_, ?_⟩
  · intro h
    show jsOrNullStr p.institute = none
    rw [h]
    rfl
  · intro h
    show jsOrNullStr p.researchArea = none
    rw [h]
    rfl
  · intro h
    show jsOrNullStr p.homeAddress = none
    rw [h]
    rfl
  · intro h
    show jsOrNullStr p.ticketNumber = none
    rw [h]
    rfl
  · intro h
    show jsOrNullBool p.feePaid = none
    rw [h]
    rfl
  · exact mapGet_mapSet_self Visitor.id s.visitors s.visitorCurrentId _ rfl

/-- C3 witness: the spec's scenario — checking in the researcher payload
whose `timeIn` is 2024-01-01T09:00:00Z yields a CheckedIn record dated
"2024-01-01" with null optional fields; a payload carrying the
schema-admitted optional `timeOut` still stores `timeOut = null`. -/
theorem createVisitor_spec_witness :
    p123.institute = none ∧
      (createVisitor s0 p123).1.status = "CheckedIn" ∧
      (createVisitor s0 p123).1.timeOut = none ∧
      (createVisitor s0 p123).1.institute = none ∧
      (createVisitor s0 p123).1.date = "2024-01-01" ∧
      (createVisitor s0 { p123 with timeOut := some 42 }).1.timeOut = none :=
  ⟨rfl, (createVisitor_spec s0 p123).1, (createVisitor_spec s0 p123).2.1,
    (createVisitor_spec s0 p123).2.2.2.1 rfl,
    ((createVisitor_spec s0 p123).2.2.1).trans (by decide),
    (createVisitor_spec s0 { p123 with timeOut := some 42 }).2.1⟩

/-- C4: checkout of an unknown id returns not-found and leaves the store
unchanged; checkout of any existing record returns and stores the record
with `timeOut` set to the supplied time and status CheckedOut — also when
the record was already CheckedOut, in which case `timeOut` is simply
overwritten and no error is raised. -/
theorem checkOutVisitor_spec (s : MemStorage) (id : Nat) (t : Int) :
    (mapGet Visitor.id s.visitors id = none → checkOutVisitor s id t = (none, s)) ∧
    (∀ v, mapGet Visitor.id s.visitors id = some v →
      (checkOutVisitor s id t).1 =
          some { v with timeOut := some t, status := "CheckedOut" } ∧
        mapGet Visitor.id (checkOutVisitor s id t).2.visitors id =
          some { v with timeOut := some t, status := "CheckedOut" } ∧
        (v.status = "CheckedOut" →
          ({ v with timeOut := some t, status := "CheckedOut" }).status =
            "CheckedOut")) := by
  constructor
  · intro h
    unfold VisitorApp.checkOutVisitor
    rw [h]
  · intro v h
    have hkey : Visitor.id v = id := key_eq_of_mapGet_some Visitor.id s.visitors id v h
    unfold VisitorApp.checkOutVisitor
    rw [h]
    exact ⟨rfl, mapGet_mapSet_self Visitor.id s.visitors id _ hkey, fun _ => rfl⟩

/-- C4 witness: checking out the already-checked-out researcher record
overwrites its `timeOut` without an error, and checkout of an unknown id
returns not-found. -/
theorem checkOutVisitor_spec_witness :
    mapGet Visitor.id sOut.visitors 1 = some vOut1 ∧
      (checkOutVisitor sOut 1 1704110400000).1 =
        some { vOut1 with
               timeOut := some 1704110400000
               status := "CheckedOut" } ∧
      checkOutVisitor s0 99 0 = (none, s0) :=
  ⟨by decide,
    ((checkOutVisitor_spec sOut 1 1704110400000).2 vOut1 (by decide)).1,
    (checkOutVisitor_spec s0 99 0).1 (by decide)⟩

/-- C6: the active lookup only ever returns a record whose idNumber
matches and whose status is CheckedIn, and returns not-found whenever
every record carrying that idNumber is CheckedOut (in particular when no
record carries it). -/
theorem getVisitorByIdNumber_spec (s : MemStorage) (n : String) :
    (∀ v, getVisitorByIdNumber s n = some v →
      v.idNumber = n ∧ v.status = "CheckedIn") ∧
    ((∀ v ∈ s.visitors, v.idNumber = n → v.status = "CheckedOut") →
      getVisitorByIdNumber s n = none) := by
  constructor
  · intro v h
    have h' : s.visitors.find?
        (fun v => v.idNumber == n && v.status == "CheckedIn") = some v := h
    have hp := List.find?_some h'
    rw [Bool.and_eq_true, beq_iff_eq, beq_iff_eq] at hp
    exact hp
  · intro hall
    unfold getVisitorByIdNumber
    rw [List.find?_eq_none]
    intro x hx
    rw [Bool.and_eq_true, beq_iff_eq, beq_iff_eq]
    rintro ⟨h1, h2⟩
    have hco := hall x hx h1
    rw [hco] at h2
    exact absurd h2 (by decide)

/-- C6 witness: after the researcher's checkout every "123" record is
CheckedOut, and the active lookup returns not-found. -/
theorem getVisitorByIdNumber_spec_witness :
    (∀ v ∈ sOut.visitors, v.idNumber = "123" → v.status = "CheckedOut") ∧
      getVisitorByIdNumber sOut "123" = none :=
  ⟨by decide, (getVisitorByIdNumber_spec sOut "123").2 (by decide)⟩

/-- C9: the falsy-coalescing default in `createVisitor` stores an
explicit `feePaid = false` as null, indistinguishable from an absent
`feePaid`. -/
theorem createVisitor_feePaid_false_erased (s : MemStorage) (p : InsertVisitor) :
    (createVisitor s { p with feePaid := some false }).1.feePaid = none ∧
    (createVisitor s { p with feePaid := none }).1.feePaid = none :=
  ⟨rfl, rfl⟩

/-- C10: checkout of an existing record changes only its `timeOut` and
`status` fields, leaves every record stored under a different id intact,
and touches no other collection or counter. -/
theorem checkOutVisitor_frame (s : MemStorage) (id : Nat) (t : Int) (v : Visitor)
    (h : mapGet Visitor.id s.visitors id = some v) :
    mapGet Visitor.id (checkOutVisitor s id t).2.visitors id =
        some { v with timeOut := some t, status := "CheckedOut" } ∧
    ({ v with timeOut := some t, status := "CheckedOut" }).id = v.id ∧
    ({ v with timeOut := some t, status := "CheckedOut" }).fullName = v.fullName ∧
    ({ v with timeOut := some t, status := "CheckedOut" }).idNumber = v.idNumber ∧
    ({ v with timeOut := some t, status := "CheckedOut" }).phoneNumber = v.phoneNumber ∧
    ({ v with timeOut := some t, status := "CheckedOut" }).visitorType = v.visitorType ∧
    ({ v with timeOut := some t, status := "CheckedOut" }).destination = v.destination ∧
    ({ v with timeOut := some t, status := "CheckedOut" }).timeIn = v.timeIn ∧
    ({ v with timeOut := some t, status := "CheckedOut" }).date = v.date ∧
    ({ v with timeOut := some t, status := "CheckedOut" }).institute = v.institute ∧
    ({ v with timeOut := some t, status := "CheckedOut" }).researchArea = v.researchArea ∧
    ({ v with timeOut := some t, status := "CheckedOut" }).homeAddress = v.homeAddress ∧
    ({ v with timeOut := some t, status := "CheckedOut" }).ticketNumber = v.ticketNumber ∧
    ({ v with timeOut := some t, status := "CheckedOut" }).feePaid = v.feePaid ∧
    (∀ j, j ≠ id → mapGet Visitor.id (checkOutVisitor s id t).2.visitors j =
      mapGet Visitor.id s.visitors j) ∧
    (checkOutVisitor s id t).2.users = s.users ∧
    (checkOutVisitor s id t).2.libraryVisits = s.libraryVisits ∧
    (checkOutVisitor s id t).2.visitorCurrentId = s.visitorCurrentId := by
  have hkey : Visitor.id v = id := key_eq_of_mapGet_some Visitor.id s.visitors id v h
  unfold VisitorApp.checkOutVisitor
  rw [h]
  refine ⟨mapGet_mapSet_self Visitor.id s.visitors id _ hkey, rfl, rfl, rfl, rfl, rfl,
    rfl, rfl, rfl, rfl, rfl, rfl, rfl, rfl, ?_, rfl, rfl, rfl⟩
  intro j hj
  exact mapGet_mapSet_ne Visitor.id s.visitors id _ j hkey hj

/-- C10 witness: checking out the concrete general visitor rewrites only
that record; the seeded users and the id counter are untouched and a
different id still looks up to nothing. -/
theorem checkOutVisitor_frame_witness :
    mapGet Visitor.id s1.visitors 1 = some (createVisitor s0 pGen).1 ∧
      (2 : Nat) ≠ 1 ∧
      mapGet Visitor.id (checkOutVisitor s1 1 5).2.visitors 2 =
        mapGet Visitor.id s1.visitors 2 ∧
      (checkOutVisitor s1 1 5).2.users = s1.users :=
  ⟨by decide, by decide,
    (checkOutVisitor_frame s1 1 5 (createVisitor s0 pGen).1
      (by decide)).2.2.2.2.2.2.2.2.2.2.2.2.2.2.1 2 (by decide),
    (checkOutVisitor_frame s1 1 5 (createVisitor s0 pGen).1
      (by decide)).2.2.2.2.2.2.2.2.2.2.2.2.2.2.2.1⟩

/-- C5 counterexample: the stored visitor_type column is an unrestricted
string (and `insertVisitorSchema` applies no enum), so a visitor whose
visitorType is "Student" counts toward totalVisitors but toward neither
generalVisitors nor researchers: the claimed sum equality fails. -/
theorem summary_sum_fails_out_of_enum :
    ¬((getDailyVisitorSummary sOther "2024-01-01").generalVisitors +
        (getDailyVisitorSummary sOther "2024-01-01").researchers =
      (getDailyVisitorSummary sOther "2024-01-01").totalVisitors) := by
  decide

/-- C5 (amended): the daily summary's department tally always carries
exactly the nine fixed keys; every count is nonnegative (zero when no
visits occurred); each known key's count is exactly the number of that
day's visitors routed to it (so each such visitor increments exactly one
key and an unknown destination increments none); generalVisitors +
researchers never exceeds totalVisitors, and equals it whenever every
visitor of that date has a visitorType in the two-element
VisitorTypeEnum — but not in general, since the stored column is an
unrestricted string. -/
theorem getDailyVisitorSummary_spec (s : MemStorage) (d : String) :
    ((getDailyVisitorSummary s d).departments.map Prod.fst = departmentKeys) ∧
    (∀ pr ∈ (getDailyVisitorSummary s d).departments, 0 ≤ pr.2) ∧
    (∀ k, k ∈ departmentKeys →
      List.lookup k (getDailyVisitorSummary s d).departments =
        some ((getVisitorsByDate s d).filter (fun v => v.destination == k)).length) ∧
    ((getDailyVisitorSummary s d).generalVisitors + (getDailyVisitorSummary s d).researchers ≤
      (getDailyVisitorSummary s d).totalVisitors) ∧
    ((∀ v ∈ getVisitorsByDate s d, v.visitorType ∈ VisitorTypeEnum) →
      (getDailyVisitorSummary s d).generalVisitors + (getDailyVisitorSummary s d).researchers =
        (getDailyVisitorSummary s d).totalVisitors) := by
  refine ⟨?_, ?_, ?_, ?_, ?_⟩
  · show ((getVisitorsByDate s d).foldl
        (fun ds v => bumpDepartment ds v.destination) initDepartments).map Prod.fst =
      departmentKeys
    rw [map_fst_foldl_bump]
    show (departmentKeys.map (fun k => (k, (0 : Nat)))).map Prod.fst = departmentKeys
    rw [List.map_map]
    exact (List.map_congr_left fun a _ => rfl).trans (List.map_id departmentKeys)
  · intro pr _
    exact Nat.zero_le _
  · intro k hk
    show List.lookup k ((getVisitorsByDate s d).foldl
        (fun ds v => bumpDepartment ds v.destination) initDepartments) = _
    rw [lookup_foldl_bump, lookup_initDepartments k hk]
    simp
  · exact length_filter_two_disjoint _ _ (getVisitorsByDate s d)
      (general_researcher_disjoint (getVisitorsByDate s d))
  · intro hcov
    refine length_filter_two_cover _ _ (getVisitorsByDate s d)
      (general_researcher_disjoint (getVisitorsByDate s d)) ?_
    intro x hx
    have hmem := hcov x hx
    simp only [VisitorTypeEnum, List.mem_cons, List.not_mem_nil, or_false] at hmem
    rcases hmem with h | h
    · left
      simp [h]
    · right
      simp [h]

/-- C5 witness: on the concrete store with one researcher routed to the
Library on 2024-01-01, the Library key counts that one visitor, and since
that day's only visitor is enum-valued, the type counts sum to the
total. -/
theorem getDailyVisitorSummary_spec_witness :
    "Library" ∈ departmentKeys ∧
      List.lookup "Library" (getDailyVisitorSummary sRes "2024-01-01").departments =
        some ((getVisitorsByDate sRes "2024-01-01").filter
          (fun v => v.destination == "Library")).length ∧
      List.lookup "Library" (getDailyVisitorSummary sRes "2024-01-01").departments =
        some 1 ∧
      (∀ v ∈ getVisitorsByDate sRes "2024-01-01", v.visitorType ∈ VisitorTypeEnum) ∧
      (getDailyVisitorSummary sRes "2024-01-01").generalVisitors +
          (getDailyVisitorSummary sRes "2024-01-01").researchers =
        (getDailyVisitorSummary sRes "2024-01-01").totalVisitors :=
  ⟨by decide,
    (getDailyVisitorSummary_spec sRes "2024-01-01").2.2.1 "Library" (by decide),
    by decide, by decide,
    (getDailyVisitorSummary_spec sRes "2024-01-01").2.2.2.2 (by decide)⟩

/-- C7: when no record in the set has a `timeOut`, the average-duration
helper returns the sentinel "-" (not "0h 0m"); otherwise it formats the
arithmetic mean of the durations in minutes, rounded to the nearest whole
minute, as hours and leftover minutes. -/
theorem calculateAverageDuration_spec (vs : List Visitor) :
    (vs.filter (fun v => v.timeOut.isSome) = [] →
      calculateAverageDuration vs = "-" ∧ calculateAverageDuration vs ≠ "0h 0m") ∧
    (∀ q, specAverageMinutes vs = some q →
      calculateAverageDuration vs =
        toString (Int.fdiv (jsMathRound q) 60) ++ "h " ++
          toString (Int.tmod (jsMathRound q) 60) ++ "m") := by
  constructor
  · intro h
    have h0 : (vs.filter (fun v => v.timeOut.isSome)).length = 0 := by
      rw [h]
      rfl
    constructor
    · simp only [calculateAverageDuration]
      rw [if_pos h0]
    · simp only [calculateAverageDuration]
      rw [if_pos h0]
      decide
  · intro q hq
    simp only [specAverageMinutes] at hq
    rw [List.length_map] at hq
    by_cases h0 : (vs.filter (fun v => v.timeOut.isSome)).length = 0
    · rw [if_pos h0] at hq
      cases hq
    · rw [if_neg h0] at hq
      have hq' := Option.some.inj hq
      simp only [calculateAverageDuration]
      rw [if_neg h0]
      have hfold : (vs.filter (fun v => v.timeOut.isSome)).foldl
          (fun acc v => acc + (((v.timeOut.getD 0 : Int) : ℚ) - (v.timeIn : ℚ)) / (1000 * 60)) 0 =
          ((vs.filter (fun v => v.timeOut.isSome)).map
            (fun v => (((v.timeOut.getD 0 : Int) : ℚ) - (v.timeIn : ℚ)) / 60000)).sum := by
        rw [foldl_add_eq_sum
          (fun v => (((v.timeOut.getD 0 : Int) : ℚ) - (v.timeIn : ℚ)) / (1000 * 60)), zero_add]
        congr 1
        apply List.map_congr_left
        intro v _
        norm_num
      rw [hfold, hq']

/-- C7 witness: the spec's scenario — a single visit of 120 minutes
averages to "2h 0m", and an empty record set yields "-", not "0h 0m". -/
theorem calculateAverageDuration_spec_witness :
    specAverageMinutes [vDone] = some 120 ∧
      calculateAverageDuration [vDone] = "2h 0m" ∧
      calculateAverageDuration [] = "-" ∧ calculateAverageDuration [] ≠ "0h 0m" := by
  have h120 : specAverageMinutes [vDone] = some 120 := by
    simp [specAverageMinutes, vDone]
    norm_num
  have hround : jsMathRound (120 : ℚ) = 120 := by
    unfold jsMathRound
    rw [Int.floor_eq_iff]
    norm_num
  refine ⟨h120, ?_, (calculateAverageDuration_spec []).1 rfl⟩
  rw [(calculateAverageDuration_spec [vDone]).2 120 h120, hround]
  decide

/-- C1 counterexample: the store does not enforce the claimed invariant —
from the seeded initial state, two `createVisitor` calls with the same
idNumber and no intervening checkout reach a state with two CheckedIn
records for idNumber "123". -/
theorem atMostOneCheckedIn_fails_unguarded : ¬atMostOneCheckedIn sDup := by
  intro h
  have h123 := h "123"
  revert h123
  decide

/-- C1 (amended): the uniqueness invariant holds on every state reached
from the seeded initial store by a guarded operation sequence — one in
which each `createVisitor` is issued only when the active lookup for the
payload's idNumber returns not-found (the front-desk usage pattern);
checkout and fee updates never create a second active record. -/
theorem atMostOneCheckedIn_of_guarded (hash : String → String) (now : Int)
    (ops : List Op) (hg : guardedOps (initialStorage hash now) ops) :
    atMostOneCheckedIn (runOps (initialStorage hash now) ops) := by
  refine atMostOne_guardedOps _ ops (storeInv_initialStorage hash now) ?_ hg
  intro n
  show checkedInCount (initialStorage hash now).visitors n ≤ 1
  have hnil : (initialStorage hash now).visitors = [] := rfl
  rw [hnil]
  simp [checkedInCount]

/-- C1 witness: a concrete guarded sequence — one check-in on the seeded
store — satisfies the invariant. -/
theorem atMostOneCheckedIn_of_guarded_witness :
    guardedOps (initialStorage hash0 0) [Op.createVisitor pGen] ∧
      atMostOneCheckedIn (runOps (initialStorage hash0 0) [Op.createVisitor pGen]) :=
  ⟨⟨by decide, trivial⟩,
    atMostOneCheckedIn_of_guarded hash0 0 [Op.createVisitor pGen] ⟨by decide, trivial⟩⟩

/-- C8: in every state reachable from the seeded initial store, no two
records of a collection share an id, and a subsequent create in any of
the three collections assigns an id strictly greater than every id
already stored in that collection (ids are monotonic and never reused). -/
theorem id_assignment_spec (hash : String → String) (now : Int) (ops : List Op) :
    (((runOps (initialStorage hash now) ops).users.map User.id).Nodup ∧
      ∀ p n u, u ∈ (runOps (initialStorage hash now) ops).users →
        u.id < (createUser (runOps (initialStorage hash now) ops) p n).1.id) ∧
    (((runOps (initialStorage hash now) ops).visitors.map Visitor.id).Nodup ∧
      ∀ p v, v ∈ (runOps (initialStorage hash now) ops).visitors →
        v.id < (createVisitor (runOps (initialStorage hash now) ops) p).1.id) ∧
    (((runOps (initialStorage hash now) ops).libraryVisits.map LibraryVisit.id).Nodup ∧
      ∀ p w, w ∈ (runOps (initialStorage hash now) ops).libraryVisits →
        w.id < (createLibraryVisit (runOps (initialStorage hash now) ops) p).1.id) := by
  obtain ⟨⟨hu1, hu2⟩, ⟨hv1, hv2⟩, ⟨hl1, hl2⟩⟩ :=
    storeInv_runOps (initialStorage hash now) ops (storeInv_initialStorage hash now)
  exact ⟨⟨hu2, fun p n u hu => hu1 u hu⟩, ⟨hv2, fun p v hv => hv1 v hv⟩,
    ⟨hl2, fun p w hw => hl1 w hw⟩⟩

/-- C8 witness: after one concrete check-in the stored visitor's id is 1,
and a subsequent create would assign the strictly larger id 2. -/
theorem id_assignment_spec_witness :
    (createVisitor s0 pGen).1 ∈ (runOps (initialStorage hash0 0) [Op.createVisitor pGen]).visitors ∧
      (createVisitor s0 pGen).1.id <
        (createVisitor (runOps (initialStorage hash0 0) [Op.createVisitor pGen]) p123).1.id :=
  ⟨by decide,
    (id_assignment_spec hash0 0 [Op.createVisitor pGen]).2.1.2 p123
      (createVisitor s0 pGen).1 (by decide)⟩

end VisitorApp
